import Mathlib

/-!
Verification of `step2_configurable_scan.py`, a configurable ZAP security
scanner orchestration script.  The script's pure decision pipeline (risk
aggregation, threshold gating, run-summary construction, exit codes) and its
effectful polling loops (readiness poller, spider driver, active-scan driver)
are embedded shallowly: network responses, poll statuses and elapsed clock
readings become explicit input sequences, and the number of remote calls a
loop issues is returned alongside its result.
-/

set_option autoImplicit false

namespace ZapScan

/-- Fallback colour constants: the source defines a `Fore` class whose
attributes are all the empty string when `colorama` is absent
(lines 24-27 of the source); the coloured variant only changes these
opaque strings, never control flow. -/
def ForeRED : String := ""

/-- Fallback for `Fore.YELLOW`. -/
def ForeYELLOW : String := ""

/-- Fallback for `Fore.BLUE`. -/
def ForeBLUE : String := ""

/-- One security alert as returned by `zap.core.alerts`: a JSON object whose
`risk` key may be absent (`none`) and otherwise holds an arbitrary string,
plus the `alert` (name), `url` and `description` keys used by reporting. -/
structure Alert where
  risk : Option String
  alert : String
  url : String
  description : String
deriving DecidableEq, Repr

/-- The `risk_counts` dictionary built by `analyze_alerts`: exactly the four
keys `High`, `Medium`, `Low`, `Informational`, each mapped to a count. -/
structure RiskCounts where
  high : Nat
  medium : Nat
  low : Nat
  informational : Nat
deriving DecidableEq, Repr

/-- The validated `ScanConfig` object (lines 33-100): thresholds are Python
ints (possibly negative before validation), hence `Int` here. -/
structure ScanConfigT where
  target_url : String
  scan_type : String
  zap_host : String
  zap_port : Int
  max_high : Int
  max_medium : Int
  max_low : Int
  report_dir : String
deriving DecidableEq, Repr

/-- Python's `str.startswith` on a single prefix: true iff the prefix's
characters are an initial segment of the string's characters. -/
def strStartsWith (s pre : String) : Bool :=
  pre.toList.isPrefixOf s.toList

/-- `ScanConfig._validate` (lines 73-90) as a boolean: scan type must be one
of `quick`/`standard`/`full`, the target URL must start with `http://` or
`https://`, and the three thresholds must be non-negative; the source calls
`sys.exit(2)` when any check fails. -/
def configValid (c : ScanConfigT) : Bool :=
  (c.scan_type == "quick" || c.scan_type == "standard" || c.scan_type == "full")
    && (strStartsWith c.target_url "http://" || strStartsWith c.target_url "https://")
    && !(c.max_high < 0 || c.max_medium < 0 || c.max_low < 0)

/-- `risk_counts[risk] += 1` (line 332): increments the bucket named by
`risk`, or raises `KeyError` when `risk` is not one of the four keys the
dictionary was initialised with. -/
def bumpRisk (rc : RiskCounts) (risk : String) : Except String RiskCounts :=
  if risk == "High" then .ok { rc with high := rc.high + 1 }
  else if risk == "Medium" then .ok { rc with medium := rc.medium + 1 }
  else if risk == "Low" then .ok { rc with low := rc.low + 1 }
  else if risk == "Informational" then .ok { rc with informational := rc.informational + 1 }
  else .error ("KeyError: " ++ risk)

/-- The `for alert in alerts` loop of `analyze_alerts` (lines 330-332),
threading the mutable `risk_counts` dictionary; `alert.get('risk',
'Informational')` supplies the default for a missing key. -/
def analyzeFrom (rc : RiskCounts) : List Alert → Except String RiskCounts
  | [] => .ok rc
  | a :: rest =>
    match bumpRisk rc (a.risk.getD "Informational") with
    | .ok rc2 => analyzeFrom rc2 rest
    | .error e => .error e

/-- `analyze_alerts` (lines 319-334): count alerts by risk level starting
from all-zero counts; a `KeyError` from an unrecognised risk string is an
uncaught exception, modelled as `.error`. -/
def analyze_alerts (alerts : List Alert) : Except String RiskCounts :=
  analyzeFrom ⟨0, 0, 0, 0⟩ alerts

/-- One entry of the `checks` list built by `check_thresholds`:
level name, observed count, configured max, pass flag, display colour. -/
structure ThresholdCheck where
  level : String
  count : Nat
  max : Int
  passed : Bool
  color : String
deriving DecidableEq, Repr

/-- `check_thresholds` (lines 336-375): one check per gated severity
(`High`, `Medium`, `Low`), each passing iff `observed <= configured max`;
returns `(all_passed, checks)` where `all_passed` is the conjunction over
the three checks.  The `Informational` count is never consulted. -/
def check_thresholds (rc : RiskCounts) (cfg : ScanConfigT) : Bool × List ThresholdCheck :=
  let high_pass := decide ((rc.high : Int) ≤ cfg.max_high)
  let medium_pass := decide ((rc.medium : Int) ≤ cfg.max_medium)
  let low_pass := decide ((rc.low : Int) ≤ cfg.max_low)
  let checks : List ThresholdCheck :=
    [ { level := "High", count := rc.high, max := cfg.max_high,
        passed := high_pass, color := ForeRED },
      { level := "Medium", count := rc.medium, max := cfg.max_medium,
        passed := medium_pass, color := ForeYELLOW },
      { level := "Low", count := rc.low, max := cfg.max_low,
        passed := low_pass, color := ForeBLUE } ]
  (checks.all (fun c => c.passed), checks)

/-- The pure core of `display_results` (lines 377-425): it recomputes
`check_thresholds(risk_counts, config)` and returns its `all_passed`
component; everything else in the function is printing. -/
def display_results (rc : RiskCounts) (cfg : ScanConfigT) : Bool :=
  (check_thresholds rc cfg).1

/-- A dynamically-typed Python return value, needed because `wait_for_zap`
could in principle return either a boolean or a string. -/
inductive PyValue where
  | pybool (b : Bool)
  | pystr (s : String)
deriving DecidableEq, Repr

/-- Python truthiness of a `PyValue`, as used by `if not wait_for_zap(config)`
on line 519. -/
def PyValue.truthy : PyValue → Bool
  | .pybool b => b
  | .pystr s => s != ""

/-- Attempt budget of the readiness loop: `for attempt in range(30)`
(line 153). -/
def ZAP_WAIT_ATTEMPTS : Nat := 30

/-- Inter-attempt delay of the readiness loop: `time.sleep(2)` (line 167). -/
def ZAP_WAIT_DELAY_SECS : Nat := 2

/-- Per-request timeout of the readiness probe: `timeout=5` (line 157). -/
def ZAP_REQUEST_TIMEOUT_SECS : Nat := 5

/-- The `for attempt in range(30)` loop of `wait_for_zap` (lines 153-167)
over a response environment: `respond i` is `none` when attempt `i` raises a
request exception (swallowed by the bare `except`), and `some (status,
version)` when it returns an HTTP response.  Returns the Python return value
together with the number of status requests issued. -/
def waitLoop (respond : Nat → Option (Nat × String)) : Nat → Nat → PyValue × Nat
  | _, 0 => (.pybool false, 0)
  | attempt, fuel + 1 =>
    match respond attempt with
    | some (status, _version) =>
      if status == 200 then (.pybool true, 1)
      else
        let r := waitLoop respond (attempt + 1) fuel
        (r.1, r.2 + 1)
    | none =>
      let r := waitLoop respond (attempt + 1) fuel
      (r.1, r.2 + 1)

/-- `wait_for_zap` (lines 145-170): poll the version endpoint up to 30 times,
returning `True` on the first HTTP 200 and `False` once the budget is
exhausted. -/
def wait_for_zap (respond : Nat → Option (Nat × String)) : PyValue × Nat :=
  waitLoop respond 0 ZAP_WAIT_ATTEMPTS

/-- One entry of `ScanTypeConfig.TYPES` (lines 109-134). -/
structure ScanTypeProfile where
  name : String
  description : String
  spider_max_depth : Nat
  spider_max_duration : Nat
  active_scan : Bool
  duration_estimate : String
deriving DecidableEq, Repr

/-- `ScanTypeConfig.TYPES` / `ScanTypeConfig.get` (lines 106-139): the fixed
profile table keyed by scan type; an unknown key raises `KeyError` (`none`). -/
def scanTypeGet : String → Option ScanTypeProfile
  | "quick" => some
      { name := "Quick Scan", description := "Fast surface-level scan",
        spider_max_depth := 1, spider_max_duration := 2,
        active_scan := false, duration_estimate := "~2 minutes" }
  | "standard" => some
      { name := "Standard Scan", description := "Balanced scan for regular builds",
        spider_max_depth := 2, spider_max_duration := 5,
        active_scan := true, duration_estimate := "~10 minutes" }
  | "full" => some
      { name := "Full Scan", description := "Comprehensive security assessment",
        spider_max_depth := 0, spider_max_duration := 0,
        active_scan := true, duration_estimate := "30+ minutes" }
  | _ => none

/-- Environment of one spider run: `statusAt k` is the status returned by the
`while` condition's `zap.spider.status(scan_id)` call on iteration `k`,
`elapsedAt k` is `int(time.time() - start_time)` on iteration `k`, and
`results` is what `zap.spider.results(scan_id)` returns after the loop. -/
structure SpiderEnv where
  statusAt : Nat → Nat
  elapsedAt : Nat → Nat
  results : List String

/-- How the spider polling loop exited. -/
inductive SpiderOutcome where
  | completed
  | timedOut
deriving DecidableEq, Repr

/-- The `while int(zap.spider.status(scan_id)) < 100` loop of
`run_spider_scan` (lines 235-246): exits normally when status reaches 100;
when a nonzero duration budget is exceeded it calls `zap.spider.stop` and
breaks.  Returns the outcome and the number of stop calls issued, `none` if
the fuel runs out before the loop exits (the script would still be looping). -/
def spiderLoop (env : SpiderEnv) (maxDurationSecs : Nat) :
    Nat → Nat → Option (SpiderOutcome × Nat)
  | _, 0 => none
  | k, fuel + 1 =>
    if env.statusAt k < 100 then
      if maxDurationSecs > 0 ∧ env.elapsedAt k > maxDurationSecs then
        some (.timedOut, 1)
      else
        spiderLoop env maxDurationSecs (k + 1) fuel
    else
      some (.completed, 0)

/-- Observable result of `run_spider_scan`: which depth (if any) was passed
to `zap.spider.set_option_max_depth`, how the polling loop exited, how many
stop requests were issued, and the URL list returned. -/
structure SpiderResult where
  depthOption : Option Nat
  outcome : SpiderOutcome
  stopCalls : Nat
  urls : List String
deriving DecidableEq, Repr

/-- `run_spider_scan` (lines 213-262): apply the depth option only when the
profile's `spider_max_depth > 0` (line 224), convert the duration budget to
seconds (`* 60`, line 233), run the polling loop, then fetch and return the
discovered URLs (line 251) regardless of how the loop exited. -/
def run_spider_scan (env : SpiderEnv) (profile : ScanTypeProfile) (fuel : Nat) :
    Option SpiderResult :=
  let depthOption : Option Nat :=
    if profile.spider_max_depth > 0 then some profile.spider_max_depth else none
  match spiderLoop env (profile.spider_max_duration * 60) 0 fuel with
  | none => none
  | some (o, stops) => some ⟨depthOption, o, stops, env.results⟩

/-- The `while int(zap.ascan.status(scan_id)) < 100` loop of
`run_active_scan` (lines 290-298): polls until status reaches 100, with no
timeout; `none` if the fuel runs out first. -/
def ascanLoop (statusAt : Nat → Nat) : Nat → Nat → Option Unit
  | _, 0 => none
  | k, fuel + 1 =>
    if statusAt k < 100 then ascanLoop statusAt (k + 1) fuel else some ()

/-- `run_active_scan` (lines 268-300), returning the number of
`zap.ascan.scan` submissions issued: when the profile disables active scan
the function returns immediately (lines 273-277) having submitted nothing;
otherwise it submits one job and polls it to completion. -/
def run_active_scan (statusAt : Nat → Nat) (profile : ScanTypeProfile) (fuel : Nat) :
    Option Nat :=
  if profile.active_scan then
    match ascanLoop statusAt 0 fuel with
    | none => none
    | some _ => some 1
  else
    some 0

/-- One element of the summary's `high_risk_alerts` list (lines 478-485). -/
structure HighRiskEntry where
  name : String
  url : String
  description : String
deriving DecidableEq, Repr

/-- The `summary` dictionary written by `save_reports` (lines 466-486). -/
structure Summary where
  timestamp : String
  target_url : String
  scan_type : String
  total_alerts : Nat
  risk_counts : RiskCounts
  max_high : Int
  max_medium : Int
  max_low : Int
  passed : Bool
  high_risk_alerts : List HighRiskEntry
deriving DecidableEq, Repr

/-- The summary object `save_reports` builds (lines 466-486) from the alert
list, config, the `risk_counts` and the `scan_passed` flag it was handed:
`risk_counts` and `passed` are stored verbatim; `high_risk_alerts` keeps
name, URL and the description truncated to 200 characters for every alert
whose `risk` key equals `High`. -/
def save_reports_summary (alerts : List Alert) (cfg : ScanConfigT) (rc : RiskCounts)
    (scan_passed : Bool) (timestamp : String) : Summary :=
  { timestamp := timestamp
    target_url := cfg.target_url
    scan_type := cfg.scan_type
    total_alerts := alerts.length
    risk_counts := rc
    max_high := cfg.max_high
    max_medium := cfg.max_medium
    max_low := cfg.max_low
    passed := scan_passed
    high_risk_alerts :=
      (alerts.filter (fun a => a.risk == some "High")).map
        (fun a => ⟨a.alert, a.url, a.description.take 200⟩) }

/-- The summary that one run of `main` persists for a given alert list
(lines 536-541): `risk_counts = analyze_alerts(alerts)`, `scan_passed =
display_results(...)`, then `save_reports(...)`; `none` when
`analyze_alerts` raises (the run aborts before any report is written). -/
def mainSummary (alerts : List Alert) (cfg : ScanConfigT) (timestamp : String) :
    Option Summary :=
  match analyze_alerts alerts with
  | .error _ => none
  | .ok rc => some (save_reports_summary alerts cfg rc (display_results rc cfg) timestamp)

/-- The raw environment-variable inputs read by `ScanConfig.__init__`
(lines 36-57): `none` models an unset variable. -/
structure RawConfig where
  target_url : Option String
  scan_type : Option String
  zap_host : Option String
  zap_port : Option String
  max_high : Option String
  max_medium : Option String
  max_low : Option String
  report_dir : Option String

/-- Decimal-digit accumulator for `pyInt`. -/
def digitsToNat (acc : Nat) : List Char → Option Nat
  | [] => some acc
  | c :: cs => if c.isDigit then digitsToNat (acc * 10 + (c.toNat - 48)) cs else none

/-- Python's `int(str)` on the strings this script reads: an optional sign
followed by at least one decimal digit parses to that integer; anything else
raises `ValueError` (`none`).  (Python additionally tolerates surrounding
whitespace and underscores, which never occur in this script's defaults.) -/
def pyInt (s : String) : Option Int :=
  match s.toList with
  | '-' :: cs => if cs = [] then none else (digitsToNat 0 cs).map (fun n => -(n : Int))
  | '+' :: cs => if cs = [] then none else (digitsToNat 0 cs).map (fun n => (n : Int))
  | cs => if cs = [] then none else (digitsToNat 0 cs).map (fun n => (n : Int))

/-- `ScanConfig` construction and validation (lines 36-90): the required
target URL missing or empty exits with code 2 (`_get_required`); optional
variables fall back to their defaults; `int(...)` raising `ValueError` on a
non-numeric value is an uncaught exception; `_validate` exits with code 2 on
a bad scan type, URL scheme or negative threshold.  All failure paths are
collapsed to `none` since each leads the process to exit code 2. -/
def parseConfig (raw : RawConfig) : Option ScanConfigT :=
  match raw.target_url with
  | none => none
  | some url =>
    if url == "" then none
    else
      match pyInt (raw.zap_port.getD "8080"), pyInt (raw.max_high.getD "0"),
          pyInt (raw.max_medium.getD "5"), pyInt (raw.max_low.getD "999") with
      | some port, some mh, some mm, some ml =>
        let cfg : ScanConfigT :=
          { target_url := url
            scan_type := raw.scan_type.getD "standard"
            zap_host := raw.zap_host.getD "localhost"
            zap_port := port
            max_high := mh
            max_medium := mm
            max_low := ml
            report_dir := raw.report_dir.getD "./reports" }
        if configValid cfg then some cfg else none
      | _, _, _, _ => none

/-- The external world one run of `main` interacts with: the readiness
responses, the spider environment, the active-scan statuses, and the alert
list `zap.core.alerts` returns. -/
structure ZapEnv where
  readiness : Nat → Option (Nat × String)
  spider : SpiderEnv
  ascanStatus : Nat → Nat
  alerts : List Alert

/-- The body of `main`'s `try` block after a valid config (lines 513-551):
look up the scan-type profile, wait for ZAP (exit 2 when unavailable), run
the spider and the optional active scan, fetch alerts, aggregate, gate, and
exit 0 or 1 by the gate verdict; an uncaught `KeyError` (unknown profile key
or unknown risk string) is caught by `except Exception` and exits 2.
Returns the process exit code, `none` when a polling loop never exits. -/
def runScan (cfg : ScanConfigT) (env : ZapEnv) (fuel : Nat) : Option Nat :=
  match scanTypeGet cfg.scan_type with
  | none => some 2
  | some profile =>
    if (wait_for_zap env.readiness).1.truthy then
      match run_spider_scan env.spider profile fuel with
      | none => none
      | some _ =>
        match run_active_scan env.ascanStatus profile fuel with
        | none => none
        | some _ =>
          match analyze_alerts env.alerts with
          | .error _ => some 2
          | .ok rc => some (if (check_thresholds rc cfg).1 then 0 else 1)
    else
      some 2

/-- What happened to one invocation of `main` (lines 499-560): either the
`try` block ran over a config environment and a ZAP environment, or it was
cut short by `KeyboardInterrupt`, or some other exception escaped. -/
inductive RunInput where
  | run (raw : RawConfig) (env : ZapEnv) (fuel : Nat)
  | interrupt
  | externalError

/-- `main`'s exit code (lines 499-560): configuration failure exits 2,
`KeyboardInterrupt` exits 130 (line 555), any other exception exits 2
(line 560), and a completed scan exits by `runScan`. -/
def pyMain : RunInput → Option Nat
  | .run raw env fuel =>
    match parseConfig raw with
    | none => some 2
    | some cfg => runScan cfg env fuel
  | .interrupt => some 130
  | .externalError => some 2

/-- Whether a risk string is one of the four keys the `risk_counts`
dictionary of `analyze_alerts` is initialised with (lines 323-328). -/
def riskOk (r : String) : Bool :=
  r == "High" || r == "Medium" || r == "Low" || r == "Informational"

/-- Number of alerts whose effective risk (the `risk` key, defaulting to
`Informational` when absent) equals `r`. -/
def countRisk (r : String) (alerts : List Alert) : Nat :=
  (alerts.filter (fun a => a.risk.getD "Informational" == r)).length

/-- The configuration of the spec's worked scenario: thresholds
`max_high = 0`, `max_medium = 5`, `max_low = 999` (also the source's
defaults), with valid scan type and URL scheme. -/
def cfgScenario : ScanConfigT :=
  { target_url := "http://example.com", scan_type := "standard",
    zap_host := "localhost", zap_port := 8080,
    max_high := 0, max_medium := 5, max_low := 999, report_dir := "./reports" }

/-! ## Helper lemmas about the risk aggregator -/

theorem bumpRisk_high (rc : RiskCounts) : bumpRisk rc "High" =
    .ok ⟨rc.high + 1, rc.medium, rc.low, rc.informational⟩ := by simp [bumpRisk]

theorem bumpRisk_medium (rc : RiskCounts) : bumpRisk rc "Medium" =
    .ok ⟨rc.high, rc.medium + 1, rc.low, rc.informational⟩ := by simp [bumpRisk]

theorem bumpRisk_low (rc : RiskCounts) : bumpRisk rc "Low" =
    .ok ⟨rc.high, rc.medium, rc.low + 1, rc.informational⟩ := by simp [bumpRisk]

theorem bumpRisk_informational (rc : RiskCounts) : bumpRisk rc "Informational" =
    .ok ⟨rc.high, rc.medium, rc.low, rc.informational + 1⟩ := by simp [bumpRisk]

theorem countRisk_cons (r : String) (a : Alert) (rest : List Alert) :
    countRisk r (a :: rest) =
      (if (a.risk.getD "Informational" == r) = true then 1 else 0) + countRisk r rest := by
  simp only [countRisk, List.filter_cons]
  by_cases hpa : (a.risk.getD "Informational" == r) = true
  · simp [hpa, Nat.add_comm]
  · simp [hpa]

theorem analyzeFrom_append (l₁ l₂ : List Alert) : ∀ rc : RiskCounts,
    analyzeFrom rc (l₁ ++ l₂) =
      match analyzeFrom rc l₁ with
      | .ok rc2 => analyzeFrom rc2 l₂
      | .error e => .error e := by
  induction l₁ with
  | nil => intro rc; rfl
  | cons a rest ih =>
    intro rc
    simp only [List.cons_append, analyzeFrom]
    cases bumpRisk rc (a.risk.getD "Informational") with
    | ok rc2 => exact ih rc2
    | error e => rfl

theorem analyzeFrom_ok (l : List Alert)
    (h : ∀ a ∈ l, riskOk (a.risk.getD "Informational") = true) : ∀ rc : RiskCounts,
    analyzeFrom rc l = .ok
      ⟨rc.high + countRisk "High" l, rc.medium + countRisk "Medium" l,
        rc.low + countRisk "Low" l, rc.informational + countRisk "Informational" l⟩ := by
  induction l with
  | nil => intro rc; simp [analyzeFrom, countRisk]
  | cons a rest ih =>
    intro rc
    have ha : riskOk (a.risk.getD "Informational") = true := h a (by simp)
    have hrest : ∀ x ∈ rest, riskOk (x.risk.getD "Informational") = true :=
      fun x hx => h x (by simp [hx])
    have hih := ih hrest
    simp only [riskOk, Bool.or_eq_true, beq_iff_eq] at ha
    simp only [analyzeFrom]
    rcases ha with ((h1 | h1) | h1) | h1
    · rw [h1, bumpRisk_high]
      refine (hih _).trans ?_
      simp [countRisk_cons, h1]
      omega
    · rw [h1, bumpRisk_medium]
      refine (hih _).trans ?_
      simp [countRisk_cons, h1]
      omega
    · rw [h1, bumpRisk_low]
      refine (hih _).trans ?_
      simp [countRisk_cons, h1]
      omega
    · rw [h1, bumpRisk_informational]
      refine (hih _).trans ?_
      simp [countRisk_cons, h1]
      omega

theorem countRisk_total (l : List Alert)
    (h : ∀ a ∈ l, riskOk (a.risk.getD "Informational") = true) :
    countRisk "High" l + countRisk "Medium" l + countRisk "Low" l +
      countRisk "Informational" l = l.length := by
  induction l with
  | nil => simp [countRisk]
  | cons a rest ih =>
    have ha := h a (by simp)
    have hrest : ∀ x ∈ rest, riskOk (x.risk.getD "Informational") = true :=
      fun x hx => h x (by simp [hx])
    have hr := ih hrest
    simp only [riskOk, Bool.or_eq_true, beq_iff_eq] at ha
    simp only [countRisk_cons, List.length_cons]
    rcases ha with ((h1 | h1) | h1) | h1 <;> simp [h1] <;> omega

theorem getD_riskOk (a : Alert) (h : ∀ r, a.risk = some r → riskOk r = true) :
    riskOk (a.risk.getD "Informational") = true := by
  cases hr : a.risk with
  | none => simp [hr]; decide
  | some r => simpa [hr] using h r hr

/-! ## Claim theorems -/

/-- Claim C1: for every `RiskCounts` and every validated `ScanConfig`,
`check_thresholds` produces one per-severity check for each of High, Medium
and Low computed as `observed <= configured_max`, and overall `pass = true`
iff all three gated counts are within their configured maxima.  With
thresholds `max_high = 0`, `max_medium = 5`, `max_low = 999`, the counts
`High 0 / Medium 3 / Low 10` pass and `High 1 / Medium 0 / Low 0` fail. -/
theorem threshold_gate_correct :
    (∀ (rc : RiskCounts) (cfg : ScanConfigT), configValid cfg = true →
      ((check_thresholds rc cfg).2.map (fun c => (c.level, c.count, c.max, c.passed)) =
        [("High", rc.high, cfg.max_high, decide ((rc.high : Int) ≤ cfg.max_high)),
         ("Medium", rc.medium, cfg.max_medium, decide ((rc.medium : Int) ≤ cfg.max_medium)),
         ("Low", rc.low, cfg.max_low, decide ((rc.low : Int) ≤ cfg.max_low))]) ∧
      ((check_thresholds rc cfg).1 = true ↔
        ((rc.high : Int) ≤ cfg.max_high ∧ (rc.medium : Int) ≤ cfg.max_medium ∧
          (rc.low : Int) ≤ cfg.max_low))) ∧
    (check_thresholds ⟨0, 3, 10, 0⟩ cfgScenario).1 = true ∧
    (check_thresholds ⟨1, 0, 0, 0⟩ cfgScenario).1 = false := by
  refine ⟨fun rc cfg _ => ⟨rfl, ?_⟩, by decide, by decide⟩
  simp [check_thresholds, List.all]

/-- Concrete instance of `threshold_gate_correct` at counts 1/2/3/4 and the
scenario configuration. -/
theorem threshold_gate_correct_witness :
    (check_thresholds ⟨1, 2, 3, 4⟩ cfgScenario).1 = true ↔
      ((1 : Nat) : Int) ≤ cfgScenario.max_high ∧
        ((2 : Nat) : Int) ≤ cfgScenario.max_medium ∧
        ((3 : Nat) : Int) ≤ cfgScenario.max_low :=
  (threshold_gate_correct.1 ⟨1, 2, 3, 4⟩ cfgScenario (by decide)).2

/-- Claim C2, counterexample: `analyze_alerts` is not total on every finding
list — an alert whose `risk` string is not one of the four dictionary keys
raises `KeyError` (line 332 of the source), so the aggregator can fail. -/
theorem analyze_alerts_not_total :
    analyze_alerts [⟨some "Critical", "X", "http://t/1", "d"⟩] =
      .error "KeyError: Critical" := by rfl

/-- Claim C2 (amended): for every finding list in which each present `risk`
string is one of the four known buckets, `analyze_alerts` succeeds and
returns exactly the per-bucket tallies over the four buckets High, Medium,
Low, Informational (a missing `risk` field counts as Informational). -/
theorem analyze_alerts_total_on_known_risks (alerts : List Alert)
    (h : ∀ a ∈ alerts, ∀ r, a.risk = some r → riskOk r = true) :
    analyze_alerts alerts =
      .ok ⟨countRisk "High" alerts, countRisk "Medium" alerts,
        countRisk "Low" alerts, countRisk "Informational" alerts⟩ := by
  have h' : ∀ a ∈ alerts, riskOk (a.risk.getD "Informational") = true :=
    fun a ha => getD_riskOk a (h a ha)
  have hz := analyzeFrom_ok alerts h' ⟨0, 0, 0, 0⟩
  simpa [analyze_alerts] using hz

/-- Concrete instance of `analyze_alerts_total_on_known_risks` on a
two-alert list. -/
theorem analyze_alerts_total_on_known_risks_witness :
    analyze_alerts [⟨some "High", "A", "u1", "d1"⟩, ⟨none, "B", "u2", "d2"⟩] =
      .ok ⟨countRisk "High" [⟨some "High", "A", "u1", "d1"⟩, ⟨none, "B", "u2", "d2"⟩],
        countRisk "Medium" [⟨some "High", "A", "u1", "d1"⟩, ⟨none, "B", "u2", "d2"⟩],
        countRisk "Low" [⟨some "High", "A", "u1", "d1"⟩, ⟨none, "B", "u2", "d2"⟩],
        countRisk "Informational" [⟨some "High", "A", "u1", "d1"⟩, ⟨none, "B", "u2", "d2"⟩]⟩ :=
  analyze_alerts_total_on_known_risks _ (by
    intro a ha r hr
    fin_cases ha <;> simp_all [riskOk])

/-- Claim C3: a finding with no `risk` field is counted in the
Informational bucket, and the gate verdict of `check_thresholds` is
independent of the Informational count. -/
theorem missing_severity_informational_gate_unaffected :
    (∀ (alerts : List Alert) (rc : RiskCounts) (a : Alert),
      analyze_alerts alerts = .ok rc → a.risk = none →
      analyze_alerts (alerts ++ [a]) =
        .ok ⟨rc.high, rc.medium, rc.low, rc.informational + 1⟩) ∧
    (∀ (rc rc' : RiskCounts) (cfg : ScanConfigT),
      rc.high = rc'.high → rc.medium = rc'.medium → rc.low = rc'.low →
      (check_thresholds rc cfg).1 = (check_thresholds rc' cfg).1) := by
  constructor
  · intro alerts rc a hok hnone
    unfold analyze_alerts at hok ⊢
    rw [analyzeFrom_append, hok]
    simp [analyzeFrom, hnone, bumpRisk]
  · intro rc rc' cfg h1 h2 h3
    simp [check_thresholds, h1, h2, h3]

/-- Concrete instance of `missing_severity_informational_gate_unaffected`:
appending a risk-less alert bumps only the Informational bucket, and two
counts differing only in Informational get the same verdict. -/
theorem missing_severity_informational_gate_unaffected_witness :
    analyze_alerts ([⟨some "High", "A", "u", "d"⟩] ++ [⟨none, "B", "u2", "d2"⟩]) =
      .ok ⟨1, 0, 0, 1⟩ ∧
    (check_thresholds ⟨0, 0, 0, 5⟩ cfgScenario).1 =
      (check_thresholds ⟨0, 0, 0, 777⟩ cfgScenario).1 :=
  ⟨missing_severity_informational_gate_unaffected.1 [⟨some "High", "A", "u", "d"⟩]
      ⟨1, 0, 0, 0⟩ ⟨none, "B", "u2", "d2"⟩ (by rfl) rfl,
    missing_severity_informational_gate_unaffected.2 ⟨0, 0, 0, 5⟩ ⟨0, 0, 0, 777⟩
      cfgScenario rfl rfl rfl⟩

/-- Claim C10: for every finding list whose present `risk` strings are among
the four known buckets, the four counts returned by `analyze_alerts` sum to
the number of findings. -/
theorem analyze_alerts_counts_sum (alerts : List Alert)
    (h : ∀ a ∈ alerts, ∀ r, a.risk = some r → riskOk r = true) :
    ∃ rc, analyze_alerts alerts = .ok rc ∧
      rc.high + rc.medium + rc.low + rc.informational = alerts.length := by
  have h' : ∀ a ∈ alerts, riskOk (a.risk.getD "Informational") = true :=
    fun a ha => getD_riskOk a (h a ha)
  have hz := analyzeFrom_ok alerts h' ⟨0, 0, 0, 0⟩
  refine ⟨_, by simpa [analyze_alerts] using hz, ?_⟩
  simpa using countRisk_total alerts h'

/-- Concrete instance of `analyze_alerts_counts_sum` on a three-alert
list. -/
theorem analyze_alerts_counts_sum_witness :
    ∃ rc, analyze_alerts [⟨some "Low", "A", "u", "d"⟩, ⟨none, "B", "u2", "d2"⟩,
        ⟨some "High", "C", "u3", "d3"⟩] = .ok rc ∧
      rc.high + rc.medium + rc.low + rc.informational = 3 :=
  analyze_alerts_counts_sum _ (by
    intro a ha r hr
    fin_cases ha <;> simp_all [riskOk])

/-! ## Helper lemmas about the readiness poller -/

theorem waitLoop_requests_le (respond : Nat → Option (Nat × String)) :
    ∀ fuel k, (waitLoop respond k fuel).2 ≤ fuel := by
  intro fuel
  induction fuel with
  | zero => intro k; simp [waitLoop]
  | succ f ih =>
    intro k
    simp only [waitLoop]
    cases hr : respond k with
    | none => simpa using ih (k + 1)
    | some p =>
      rcases p with ⟨st, v⟩
      by_cases h200 : (st == 200) = true
      · simp [h200]
      · simp only [h200, if_false, Bool.false_eq_true]
        simpa using ih (k + 1)

theorem waitLoop_first (respond : Nat → Option (Nat × String)) (fuel k : Nat) (v : String)
    (h : respond k = some (200, v)) :
    waitLoop respond k (fuel + 1) = (.pybool true, 1) := by
  simp [waitLoop, h]

theorem waitLoop_true_iff (respond : Nat → Option (Nat × String)) :
    ∀ fuel k, ((waitLoop respond k fuel).1 = .pybool true ↔
      ∃ j, j < fuel ∧ ∃ v, respond (k + j) = some (200, v)) := by
  intro fuel
  induction fuel with
  | zero => intro k; simp [waitLoop]
  | succ f ih =>
    intro k
    simp only [waitLoop]
    cases hr : respond k with
    | none =>
      simp only []
      rw [ih (k + 1)]
      constructor
      · rintro ⟨j, hj, v, hv⟩
        exact ⟨j + 1, by omega, v, by rw [show k + (j + 1) = k + 1 + j by omega]; exact hv⟩
      · rintro ⟨j, hj, v, hv⟩
        match j with
        | 0 => rw [Nat.add_zero] at hv; rw [hv] at hr; cases hr
        | j' + 1 =>
          exact ⟨j', by omega, v, by rw [show k + 1 + j' = k + (j' + 1) by omega]; exact hv⟩
    | some p =>
      rcases p with ⟨st, v0⟩
      by_cases h200 : (st == 200) = true
      · have hst : st = 200 := by simpa using h200
        subst hst
        simp only [h200, if_true]
        constructor
        · intro _; exact ⟨0, by omega, v0, by simpa using hr⟩
        · intro _; trivial
      · simp only [h200, Bool.false_eq_true, if_false]
        rw [ih (k + 1)]
        constructor
        · rintro ⟨j, hj, v, hv⟩
          exact ⟨j + 1, by omega, v, by rw [show k + (j + 1) = k + 1 + j by omega]; exact hv⟩
        · rintro ⟨j, hj, v, hv⟩
          match j with
          | 0 =>
            rw [Nat.add_zero] at hv; rw [hv] at hr
            cases hr
            simp at h200
          | j' + 1 =>
            exact ⟨j', by omega, v, by rw [show k + 1 + j' = k + (j' + 1) by omega]; exact hv⟩

theorem waitLoop_never200 (respond : Nat → Option (Nat × String)) :
    ∀ fuel k, (∀ j, j < fuel → ∀ st v, respond (k + j) = some (st, v) → st ≠ 200) →
    waitLoop respond k fuel = (.pybool false, fuel) := by
  intro fuel
  induction fuel with
  | zero => intro k _; simp [waitLoop]
  | succ f ih =>
    intro k h
    simp only [waitLoop]
    cases hr : respond k with
    | none =>
      rw [ih (k + 1) (fun j hj st v hv => h (j + 1) (by omega) st v
        (by rw [show k + (j + 1) = k + 1 + j by omega]; exact hv))]
    | some p =>
      rcases p with ⟨st, v0⟩
      have hne : st ≠ 200 := h 0 (by omega) st v0 (by simpa using hr)
      have h200 : (st == 200) = false := by simpa using hne
      simp only [h200, Bool.false_eq_true, if_false]
      rw [ih (k + 1) (fun j hj st v hv => h (j + 1) (by omega) st v
        (by rw [show k + (j + 1) = k + 1 + j by omega]; exact hv))]

/-- Claim C6, counterexample: on an immediate HTTP 200, `wait_for_zap`
returns the boolean `True` (line 162 of the source), not the reported
version string — the version is only printed. -/
theorem wait_for_zap_returns_flag_not_version :
    (wait_for_zap (fun _ => some (200, "2.14.0"))).1 = .pybool true ∧
    (wait_for_zap (fun _ => some (200, "2.14.0"))).1 ≠ .pystr "2.14.0" := by
  constructor
  · rfl
  · intro h
    exact PyValue.noConfusion h

/-- Claim C6 (amended): the readiness poller issues at most 30 status
attempts (with the 2-second delay and 5-second per-request timeout
constants), succeeds immediately with the boolean `True` on the first
HTTP 200, returns the boolean `False` (not an exception) after 30 failed
attempts — swallowing per-attempt request errors — and the caller maps that
to process exit code 2. -/
theorem wait_for_zap_bounded_retry :
    ZAP_WAIT_ATTEMPTS = 30 ∧ ZAP_WAIT_DELAY_SECS = 2 ∧ ZAP_REQUEST_TIMEOUT_SECS = 5 ∧
    (∀ respond, (wait_for_zap respond).2 ≤ 30) ∧
    (∀ respond v, respond 0 = some (200, v) → wait_for_zap respond = (.pybool true, 1)) ∧
    (∀ respond, ((wait_for_zap respond).1 = .pybool true ↔
      ∃ j, j < 30 ∧ ∃ v, respond j = some (200, v))) ∧
    (∀ respond, (∀ j, j < 30 → ∀ st v, respond j = some (st, v) → st ≠ 200) →
      wait_for_zap respond = (.pybool false, 30)) ∧
    (∀ (raw : RawConfig) (env : ZapEnv) (fuel : Nat) (cfg : ScanConfigT),
      parseConfig raw = some cfg →
      (∀ j st v, env.readiness j = some (st, v) → st ≠ 200) →
      pyMain (.run raw env fuel) = some 2) := by
  refine ⟨rfl, rfl, rfl, ?_, ?_, ?_, ?_, ?_⟩
  · intro respond
    exact waitLoop_requests_le respond 30 0
  · intro respond v h
    exact waitLoop_first respond 29 0 v h
  · intro respond
    simpa using waitLoop_true_iff respond 30 0
  · intro respond h
    exact waitLoop_never200 respond 30 0 (by simpa using h)
  · intro raw env fuel cfg hparse h
    have hwait : wait_for_zap env.readiness = (.pybool false, 30) :=
      waitLoop_never200 env.readiness 30 0 (by
        intro j _ st v hv
        exact h j st v (by simpa using hv))
    simp only [pyMain, hparse, runScan]
    cases scanTypeGet cfg.scan_type with
    | none => rfl
    | some profile =>
      simp [hwait, PyValue.truthy]

/-- Concrete instances of `wait_for_zap_bounded_retry`: immediate success
and a fully exhausted budget. -/
theorem wait_for_zap_bounded_retry_witness :
    wait_for_zap (fun _ => some (200, "2.14.0")) = (.pybool true, 1) ∧
    wait_for_zap (fun _ => none) = (.pybool false, 30) :=
  ⟨wait_for_zap_bounded_retry.2.2.2.2.1 _ "2.14.0" rfl,
    wait_for_zap_bounded_retry.2.2.2.2.2.2.1 _ (by intro j hj st v h; simp at h)⟩

/-! ## Helper lemmas about the spider driver -/

theorem spiderLoop_zero_duration (env : SpiderEnv) :
    ∀ fuel k o s, spiderLoop env 0 k fuel = some (o, s) → o = .completed ∧ s = 0 := by
  intro fuel
  induction fuel with
  | zero => intro k o s h; simp [spiderLoop] at h
  | succ f ih =>
    intro k o s h
    simp only [spiderLoop] at h
    by_cases hst : env.statusAt k < 100
    · rw [if_pos hst, if_neg (by simp)] at h
      exact ih (k + 1) o s h
    · rw [if_neg hst] at h
      simp at h
      exact ⟨h.1.symm, h.2.symm⟩

theorem run_spider_scan_urls (env : SpiderEnv) (profile : ScanTypeProfile) (fuel : Nat)
    (res : SpiderResult) (h : run_spider_scan env profile fuel = some res) :
    res.urls = env.results := by
  unfold run_spider_scan at h
  cases hl : spiderLoop env (profile.spider_max_duration * 60) 0 fuel with
  | none => rw [hl] at h; cases h
  | some p => rcases p with ⟨o, s⟩; rw [hl] at h; cases h; rfl

theorem spiderLoop_timedOut (env : SpiderEnv) (m : Nat) :
    ∀ (d fuel k : Nat), d < fuel →
    (∀ j, j ≤ d → env.statusAt (k + j) < 100) →
    (∀ j, j < d → ¬(0 < m ∧ env.elapsedAt (k + j) > m)) →
    (0 < m ∧ env.elapsedAt (k + d) > m) →
    spiderLoop env m k fuel = some (.timedOut, 1) := by
  intro d
  induction d with
  | zero =>
    intro fuel k hf hst _ hex
    match fuel, hf with
    | f + 1, _ =>
      simp only [spiderLoop]
      rw [if_pos (by simpa using hst 0 (le_refl 0))]
      rw [if_pos (by simpa using hex)]
  | succ d ih =>
    intro fuel k hf hst hno hex
    match fuel, hf with
    | f + 1, hf =>
      simp only [spiderLoop]
      rw [if_pos (by simpa using hst 0 (by omega))]
      rw [if_neg (by simpa using hno 0 (by omega))]
      exact ih f (k + 1) (by omega)
        (fun j hj => by rw [show k + 1 + j = k + (j + 1) by omega]; exact hst (j + 1) (by omega))
        (fun j hj => by rw [show k + 1 + j = k + (j + 1) by omega]; exact hno (j + 1) (by omega))
        (by rw [show k + 1 + d = k + (d + 1) by omega]; exact hex)

/-- Claim C7: a depth limit of 0 means the depth option is never applied to
the scanner, and a duration limit of 0 means the elapsed-time check is
skipped entirely, so the crawl loop never issues a stop request and can only
exit by completion; the `full` profile sets both limits to 0. -/
theorem zero_limits_disable :
    (∀ (env : SpiderEnv) (profile : ScanTypeProfile) (fuel : Nat) (res : SpiderResult),
      profile.spider_max_depth = 0 →
      run_spider_scan env profile fuel = some res → res.depthOption = none) ∧
    (∀ (env : SpiderEnv) (profile : ScanTypeProfile) (fuel : Nat) (res : SpiderResult),
      profile.spider_max_duration = 0 →
      run_spider_scan env profile fuel = some res →
      res.stopCalls = 0 ∧ res.outcome = .completed) ∧
    (∃ p, scanTypeGet "full" = some p ∧ p.spider_max_depth = 0 ∧ p.spider_max_duration = 0) := by
  refine ⟨?_, ?_, ⟨_, rfl, rfl, rfl⟩⟩
  · intro env profile fuel res hd h
    unfold run_spider_scan at h
    rw [hd] at h
    cases hl : spiderLoop env (profile.spider_max_duration * 60) 0 fuel with
    | none => rw [hl] at h; cases h
    | some p => rcases p with ⟨o, s⟩; rw [hl] at h; cases h; rfl
  · intro env profile fuel res hd h
    unfold run_spider_scan at h
    rw [hd, Nat.zero_mul] at h
    cases hl : spiderLoop env 0 0 fuel with
    | none => rw [hl] at h; cases h
    | some p =>
      rcases p with ⟨o, s⟩
      have hz := spiderLoop_zero_duration env fuel 0 o s hl
      rw [hl] at h
      cases h
      exact ⟨hz.2, hz.1⟩

/-- Concrete instance of `zero_limits_disable` on the `full` profile. -/
theorem zero_limits_disable_witness :
    run_spider_scan ⟨fun _ => 100, fun _ => 999999, ["u"]⟩
        ⟨"Full Scan", "Comprehensive security assessment", 0, 0, true, "30+ minutes"⟩ 1 =
      some ⟨none, .completed, 0, ["u"]⟩ ∧
    (none : Option Nat) = none ∧ (0 : Nat) = 0 ∧ SpiderOutcome.completed = .completed := by
  have h1 := zero_limits_disable.1 ⟨fun _ => 100, fun _ => 999999, ["u"]⟩
    ⟨"Full Scan", "Comprehensive security assessment", 0, 0, true, "30+ minutes"⟩ 1
    ⟨none, .completed, 0, ["u"]⟩ rfl (by rfl)
  have h2 := zero_limits_disable.2.1 ⟨fun _ => 100, fun _ => 999999, ["u"]⟩
    ⟨"Full Scan", "Comprehensive security assessment", 0, 0, true, "30+ minutes"⟩ 1
    ⟨none, .completed, 0, ["u"]⟩ rfl (by rfl)
  exact ⟨rfl, h1, h2.1, h2.2⟩

/-- Claim C8: the discovered URL list is returned however the crawl loop
exits, and when a nonzero duration budget is first exceeded the driver
issues exactly one stop request, exits the loop as timed out, and still
returns the URL results — a timed-out crawl is not a failure. -/
theorem spider_timeout_not_failure :
    (∀ (env : SpiderEnv) (profile : ScanTypeProfile) (fuel : Nat) (res : SpiderResult),
      run_spider_scan env profile fuel = some res → res.urls = env.results) ∧
    (∀ (env : SpiderEnv) (profile : ScanTypeProfile) (fuel k : Nat),
      0 < profile.spider_max_duration →
      (∀ j, j ≤ k → env.statusAt j < 100) →
      (∀ j, j < k → ¬ env.elapsedAt j > profile.spider_max_duration * 60) →
      env.elapsedAt k > profile.spider_max_duration * 60 →
      k < fuel →
      run_spider_scan env profile fuel = some
        ⟨if profile.spider_max_depth > 0 then some profile.spider_max_depth else none,
          .timedOut, 1, env.results⟩) := by
  constructor
  · exact run_spider_scan_urls
  · intro env profile fuel k hdur hst hno hex hk
    unfold run_spider_scan
    rw [spiderLoop_timedOut env (profile.spider_max_duration * 60) k fuel 0 hk
      (fun j hj => by simpa using hst j hj)
      (fun j hj hc => hno j hj (by simpa using hc.2))
      ⟨by omega, by simpa using hex⟩]

/-- Concrete instance of `spider_timeout_not_failure`: under the `quick`
profile (2-minute budget) with 999 seconds already elapsed at the first
poll, the crawl stops once, times out, and still returns both URLs. -/
theorem spider_timeout_not_failure_witness :
    run_spider_scan ⟨fun _ => 50, fun _ => 999, ["a", "b"]⟩
        ⟨"Quick Scan", "Fast surface-level scan", 1, 2, false, "~2 minutes"⟩ 3 =
      some ⟨some 1, .timedOut, 1, ["a", "b"]⟩ := by
  have h := spider_timeout_not_failure.2 ⟨fun _ => 50, fun _ => 999, ["a", "b"]⟩
    ⟨"Quick Scan", "Fast surface-level scan", 1, 2, false, "~2 minutes"⟩ 3 0
    (by decide)
    (by intro j hj; show (50 : Nat) < 100; decide)
    (by intro j hj; omega)
    (by decide)
    (by omega)
  simpa using h

/-- Claim C4: the persisted run summary's `risk_counts` and `passed` fields
exactly equal what `analyze_alerts` and `check_thresholds` computed for the
same finding list — `main` threads both values verbatim into
`save_reports`, so there is no drift between the in-memory verdict and the
persisted one. -/
theorem summary_matches_pipeline (alerts : List Alert) (cfg : ScanConfigT) (ts : String)
    (rc : RiskCounts) (h : analyze_alerts alerts = .ok rc) :
    ∃ s, mainSummary alerts cfg ts = some s ∧
      s.risk_counts = rc ∧
      s.passed = (check_thresholds rc cfg).1 ∧
      s.total_alerts = alerts.length ∧
      s.max_high = cfg.max_high ∧ s.max_medium = cfg.max_medium ∧ s.max_low = cfg.max_low := by
  refine ⟨save_reports_summary alerts cfg rc (display_results rc cfg) ts, ?_,
    rfl, rfl, rfl, rfl, rfl, rfl⟩
  simp [mainSummary, h]

/-- Concrete instance of `summary_matches_pipeline` on a one-alert run. -/
theorem summary_matches_pipeline_witness :
    ∃ s, mainSummary [⟨some "High", "A", "u", "d"⟩] cfgScenario "20260101_000000" = some s ∧
      s.risk_counts = ⟨1, 0, 0, 0⟩ ∧
      s.passed = (check_thresholds ⟨1, 0, 0, 0⟩ cfgScenario).1 ∧
      s.total_alerts = [(⟨some "High", "A", "u", "d"⟩ : Alert)].length ∧
      s.max_high = cfgScenario.max_high ∧ s.max_medium = cfgScenario.max_medium ∧
      s.max_low = cfgScenario.max_low :=
  summary_matches_pipeline _ cfgScenario _ ⟨1, 0, 0, 0⟩ (by rfl)

/-- Claim C5: the process exit code is 130 on user interrupt, 2 on any other
escaped exception, 2 on configuration failure, 2 when the scanner never
becomes available, 2 when the aggregator raises on a malformed finding, and
— once scanning completes and the gate runs — 0 iff the gate passed and 1
iff it failed, determined solely by the gate verdict. -/
theorem exit_code_policy :
    pyMain .interrupt = some 130 ∧
    pyMain .externalError = some 2 ∧
    (∀ (raw : RawConfig) (env : ZapEnv) (fuel : Nat),
      parseConfig raw = none → pyMain (.run raw env fuel) = some 2) ∧
    (∀ (raw : RawConfig) (env : ZapEnv) (fuel : Nat) (cfg : ScanConfigT),
      parseConfig raw = some cfg →
      (wait_for_zap env.readiness).1.truthy = false →
      pyMain (.run raw env fuel) = some 2) ∧
    (∀ (raw : RawConfig) (env : ZapEnv) (fuel : Nat) (cfg : ScanConfigT)
        (profile : ScanTypeProfile) (sres : SpiderResult) (asubs : Nat) (e : String),
      parseConfig raw = some cfg →
      scanTypeGet cfg.scan_type = some profile →
      (wait_for_zap env.readiness).1.truthy = true →
      run_spider_scan env.spider profile fuel = some sres →
      run_active_scan env.ascanStatus profile fuel = some asubs →
      analyze_alerts env.alerts = .error e →
      pyMain (.run raw env fuel) = some 2) ∧
    (∀ (raw : RawConfig) (env : ZapEnv) (fuel : Nat) (cfg : ScanConfigT)
        (profile : ScanTypeProfile) (sres : SpiderResult) (asubs : Nat) (rc : RiskCounts),
      parseConfig raw = some cfg →
      scanTypeGet cfg.scan_type = some profile →
      (wait_for_zap env.readiness).1.truthy = true →
      run_spider_scan env.spider profile fuel = some sres →
      run_active_scan env.ascanStatus profile fuel = some asubs →
      analyze_alerts env.alerts = .ok rc →
      pyMain (.run raw env fuel) = some (if (check_thresholds rc cfg).1 then 0 else 1)) := by
  refine ⟨rfl, rfl, ?_, ?_, ?_, ?_⟩
  · intro raw env fuel hnone
    simp [pyMain, hnone]
  · intro raw env fuel cfg hparse hwait
    simp only [pyMain, hparse, runScan]
    cases scanTypeGet cfg.scan_type with
    | none => rfl
    | some profile => simp [hwait]
  · intro raw env fuel cfg profile sres asubs e hparse hget hwait hspider hascan hanalyze
    simp [pyMain, hparse, runScan, hget, hwait, hspider, hascan, hanalyze]
  · intro raw env fuel cfg profile sres asubs rc hparse hget hwait hspider hascan hanalyze
    simp [pyMain, hparse, runScan, hget, hwait, hspider, hascan, hanalyze]

/-- Concrete instances of `exit_code_policy`: a clean passing run exits 0
and a missing required target URL exits 2. -/
theorem exit_code_policy_witness :
    pyMain (.run ⟨some "http://x", some "quick", none, none, none, none, none, none⟩
      ⟨fun _ => some (200, "v"), ⟨fun _ => 100, fun _ => 0, []⟩, fun _ => 100, []⟩ 1) = some 0 ∧
    pyMain (.run ⟨none, none, none, none, none, none, none, none⟩
      ⟨fun _ => some (200, "v"), ⟨fun _ => 100, fun _ => 0, []⟩, fun _ => 100, []⟩ 1) = some 2 := by
  constructor
  · exact exit_code_policy.2.2.2.2.2
      ⟨some "http://x", some "quick", none, none, none, none, none, none⟩
      ⟨fun _ => some (200, "v"), ⟨fun _ => 100, fun _ => 0, []⟩, fun _ => 100, []⟩ 1
      ⟨"http://x", "quick", "localhost", 8080, 0, 5, 999, "./reports"⟩
      ⟨"Quick Scan", "Fast surface-level scan", 1, 2, false, "~2 minutes"⟩
      ⟨some 1, .completed, 0, []⟩ 0 ⟨0, 0, 0, 0⟩
      (by rfl) (by rfl) (by rfl) (by rfl) (by rfl) (by rfl)
  · exact exit_code_policy.2.2.1
      ⟨none, none, none, none, none, none, none, none⟩
      ⟨fun _ => some (200, "v"), ⟨fun _ => 100, fun _ => 0, []⟩, fun _ => 100, []⟩ 1
      (by rfl)

/-- Claim C9: the `quick` profile disables active scan; with it disabled
`run_active_scan` submits no job at all; and a quick-type run still
computes its exit verdict from the crawl-phase findings via the aggregation
and gate pipeline. -/
theorem quick_scan_skips_active :
    (∀ p, scanTypeGet "quick" = some p → p.active_scan = false) ∧
    (∀ (statusAt : Nat → Nat) (profile : ScanTypeProfile) (fuel : Nat),
      profile.active_scan = false → run_active_scan statusAt profile fuel = some 0) ∧
    (∀ (raw : RawConfig) (env : ZapEnv) (fuel : Nat) (cfg : ScanConfigT)
        (profile : ScanTypeProfile) (sres : SpiderResult) (rc : RiskCounts),
      parseConfig raw = some cfg → cfg.scan_type = "quick" →
      scanTypeGet cfg.scan_type = some profile →
      (wait_for_zap env.readiness).1.truthy = true →
      run_spider_scan env.spider profile fuel = some sres →
      analyze_alerts env.alerts = .ok rc →
      pyMain (.run raw env fuel) = some (if (check_thresholds rc cfg).1 then 0 else 1)) := by
  refine ⟨?_, ?_, ?_⟩
  · intro p hp
    cases hp
    rfl
  · intro statusAt profile fuel hfalse
    simp [run_active_scan, hfalse]
  · intro raw env fuel cfg profile sres rc hparse htype hget hwait hspider hanalyze
    have hfalse : profile.active_scan = false := by
      rw [htype] at hget
      cases hget
      rfl
    have hascan : run_active_scan env.ascanStatus profile fuel = some 0 := by
      simp [run_active_scan, hfalse]
    simp [pyMain, hparse, runScan, hget, hwait, hspider, hascan, hanalyze]

/-- Concrete instance of `quick_scan_skips_active`: a quick run completes
with zero active-scan submissions and a gate-determined exit code. -/
theorem quick_scan_skips_active_witness :
    pyMain (.run ⟨some "http://x", some "quick", none, none, none, none, none, none⟩
      ⟨fun _ => some (200, "v"), ⟨fun _ => 100, fun _ => 0, []⟩, fun _ => 0, []⟩ 1) = some 0 ∧
    run_active_scan (fun _ => 0)
      ⟨"Quick Scan", "Fast surface-level scan", 1, 2, false, "~2 minutes"⟩ 1 = some 0 := by
  constructor
  · exact quick_scan_skips_active.2.2
      ⟨some "http://x", some "quick", none, none, none, none, none, none⟩
      ⟨fun _ => some (200, "v"), ⟨fun _ => 100, fun _ => 0, []⟩, fun _ => 0, []⟩ 1
      ⟨"http://x", "quick", "localhost", 8080, 0, 5, 999, "./reports"⟩
      ⟨"Quick Scan", "Fast surface-level scan", 1, 2, false, "~2 minutes"⟩
      ⟨some 1, .completed, 0, []⟩ ⟨0, 0, 0, 0⟩
      (by rfl) rfl (by rfl) (by rfl) (by rfl) (by rfl)
  · exact quick_scan_skips_active.2.1 (fun _ => 0)
      ⟨"Quick Scan", "Fast surface-level scan", 1, 2, false, "~2 minutes"⟩ 1 rfl

end ZapScan
